import Mathlib

/-!
# Verification of the synthetic-data generation script

Shallow embedding of `src/baseline/IMA宗宗主baseline.py` — a single-file
pipeline that loads seed examples from a line-delimited JSON file, builds a
few-shot prompt, calls an LLM endpoint in a loop, validates each response
and appends accepted records to an output file.

External collaborators (the `json` stdlib parser, the `requests` HTTP
library, `random.sample`, `uuid.uuid4`, the filesystem) are modelled as
explicit parameters: the JSON parser as an abstract `String → Option Json`
function, the network as a per-attempt outcome stream, `random.sample` as
an explicitly passed selection satisfying a validity predicate, and
`uuid.uuid4` as a stream of strings.

Python dynamic-type semantics that the script relies on are modelled
faithfully: `"k" in v` is a key test on dicts, an element test on lists, a
substring test on strings, and an uncaught `TypeError` on other values;
`v[k]` with a string key raises `TypeError` on non-dicts; `v['id'] = x` on
non-dicts raises `TypeError`; `json.dumps(v) + '\\n'` appends the TWO
characters backslash and `n` (the Python source literally contains an
escaped backslash), not a newline.
-/

/-- JSON values as produced by `json.loads`. Numbers are modelled as
integers (no claim touches fractional values); objects are association
lists in insertion order, as Python dicts preserve insertion order. -/
inductive Json where
  | null : Json
  | bool (b : Bool) : Json
  | num (n : Int) : Json
  | str (s : String) : Json
  | arr (elems : List Json) : Json
  | obj (fields : List (String × Json)) : Json

namespace Json

/-- Python truthiness of a decoded JSON value (`if llm_response_str:`). -/
def truthy : Json → Bool
  | .null => false
  | .bool b => b
  | .num n => decide (n ≠ 0)
  | .str s => decide (s ≠ "")
  | .arr elems => !elems.isEmpty
  | .obj fields => !fields.isEmpty

/-- Result of a Python `in`/subscript operation: success, a caught
exception (`KeyError`/`IndexError`), or an uncaught `TypeError`. -/
inductive PyOut (α : Type) where
  | ok (a : α) : PyOut α
  | keyError : PyOut α
  | indexError : PyOut α
  | typeError : PyOut α
  deriving DecidableEq, Repr

/-- Python substring test `k in s` on the character lists. -/
def strContains (s k : String) : Bool := decide (k.data <:+: s.data)

/-- Python `x == k` for a string literal `k`: true exactly on equal
strings, false on every other type (no coercion, no error). -/
def eqStrPy (k : String) : Json → Bool
  | .str s => s = k
  | _ => false

/-- First-match lookup in an object's field list (Python dict lookup;
`json.loads` never produces duplicate keys, so first match is the match). -/
def lookupField (fields : List (String × Json)) (k : String) : Option Json :=
  (fields.find? (fun f => f.1 = k)).map (·.2)

/-- Python `d[k] = v` on a dict: overwrite in place when the key exists
(keeping its position), otherwise append at the end. -/
def pySet (fields : List (String × Json)) (k : String) (v : Json) :
    List (String × Json) :=
  if fields.any (fun f => f.1 = k) then
    fields.map (fun f => if f.1 = k then (k, v) else f)
  else fields ++ [(k, v)]

/-- Outcome of Python `k in v`: membership verdict, or an uncaught
`TypeError` (raised when `v` is not iterable, e.g. a number or `null`). -/
inductive KeyTest where
  | yes : KeyTest
  | no : KeyTest
  | typeErr : KeyTest
  deriving DecidableEq, Repr

/-- Python `k in v` for a string `k`: key test on dicts, element-equality
test on lists, substring test on strings, `TypeError` otherwise. -/
def hasKeyPy (k : String) : Json → KeyTest
  | .obj fields => if fields.any (fun f => f.1 = k) then .yes else .no
  | .arr elems => if elems.any (eqStrPy k) then .yes else .no
  | .str s => if strContains s k then .yes else .no
  | _ => .typeErr

/-- Python subscript `v[k]` with a string key: dict lookup (`KeyError`
when absent), `TypeError` on every other type. -/
def getItemStr (v : Json) (k : String) : PyOut Json :=
  match v with
  | .obj fields =>
    match lookupField fields k with
    | some w => .ok w
    | none => .keyError
  | _ => .typeError

/-- Python subscript `v[i]` with a non-negative integer: list indexing
(`IndexError` out of range), string indexing yielding a one-character
string, dict lookup by integer key (`KeyError`, since decoded JSON keys
are strings), `TypeError` on the rest. -/
def getItemIdx (v : Json) (i : Nat) : PyOut Json :=
  match v with
  | .arr elems =>
    match elems.get? i with
    | some w => .ok w
    | none => .indexError
  | .str s =>
    match s.data.get? i with
    | some c => .ok (.str (String.singleton c))
    | none => .indexError
  | .obj _ => .keyError
  | _ => .typeError

/-- Propagate a Python exception through a subscript chain. -/
def bindPy (x : PyOut Json) (f : Json → PyOut Json) : PyOut Json :=
  match x with
  | .ok v => f v
  | .keyError => .keyError
  | .indexError => .indexError
  | .typeError => .typeError

/-- Hexadecimal digit used by JSON control-character escapes. -/
def hexDigit (n : Nat) : Char :=
  if n < 10 then Char.ofNat (48 + n) else Char.ofNat (87 + n)

/-- Escaping of one character inside a JSON string literal, as
`json.dumps(..., ensure_ascii=False)` does it: the two-character escapes
for quote, backslash and common controls, `\u00XX` for other controls,
every other character verbatim. -/
def escapeChar (c : Char) : String :=
  if c = '"' then "\\\""
  else if c = '\\' then "\\\\"
  else if c = '\n' then "\\n"
  else if c = '\t' then "\\t"
  else if c = '\r' then "\\r"
  else if c = '\x08' then "\\b"
  else if c = '\x0c' then "\\f"
  else if c.toNat < 32 then
    "\\u00" ++ String.singleton (hexDigit (c.toNat / 16)) ++
      String.singleton (hexDigit (c.toNat % 16))
  else String.singleton c

/-- A JSON string literal: quotes around the escaped characters. -/
def escapeString (s : String) : String :=
  "\"" ++ String.join (s.data.map escapeChar) ++ "\""

mutual

/-- `json.dumps(v, ensure_ascii=False)` with the default separators
`", "` and `": "`: a single-line serialization that never emits a raw
newline character. -/
def dumps : Json → String
  | .null => "null"
  | .bool true => "true"
  | .bool false => "false"
  | .num n => toString n
  | .str s => escapeString s
  | .arr elems => "[" ++ dumpsElems elems ++ "]"
  | .obj fields =>
    String.singleton '\x7b' ++ dumpsFields fields ++ String.singleton '\x7d'

/-- Array elements joined by `", "`. -/
def dumpsElems : List Json → String
  | [] => ""
  | [v] => dumps v
  | v :: vs => dumps v ++ ", " ++ dumpsElems vs

/-- Object entries `key: value` joined by `", "`. -/
def dumpsFields : List (String × Json) → String
  | [] => ""
  | [(k, v)] => escapeString k ++ ": " ++ dumps v
  | (k, v) :: fs => escapeString k ++ ": " ++ dumps v ++ ", " ++ dumpsFields fs

end

end Json

/-! ## Seed loading (`load_seed_examples`) -/

/-- Whether one character is stripped by Python `str.strip()`. -/
def pyWhitespace (c : Char) : Bool :=
  c = ' ' || c = '\t' || c = '\n' || c = '\r' || c = '\x0b' || c = '\x0c'

/-- `line.strip()` is falsy exactly when every character is whitespace. -/
def pyIsBlank (s : String) : Bool := s.data.all pyWhitespace

/-- The `for line in selected_lines` loop body: skip lines that strip to
empty, parse the rest in order. `none` models a `json.JSONDecodeError`
escaping the loop to the handler, which discards all seeds collected so
far. -/
def parseSelected (parse : String → Option Json) : List String → Option (List Json)
  | [] => some []
  | l :: ls =>
    if pyIsBlank l then parseSelected parse ls
    else
      match parse l with
      | none => none
      | some j => (parseSelected parse ls).map (j :: ·)

/-- `load_seed_examples`. The filesystem is explicit: `file` is `none`
when the path does not exist (`FileNotFoundError`) and otherwise holds
the result of `f.readlines()`. The `random.sample(lines, min(len(lines),
num_examples))` draw is passed in as the index list `sel` (validity is
the `ValidSample` predicate). Returns the seed list and the printed
diagnostics. -/
def load_seed_examples (parse : String → Option Json) (filepath : String)
    (file : Option (List String)) (sel : List Nat) :
    List Json × List String :=
  match file with
  | none => ([], ["错误: 种子文件 " ++ filepath ++ " 未找到。"])
  | some lines =>
    match parseSelected parse (sel.map (fun i => lines.getD i "")) with
    | some seeds => (seeds, [])
    | none => ([], ["错误: 种子文件 " ++ filepath ++ " 格式不正确，无法解析为 JSON。"])

/-- What `random.sample(lines, min(len(lines), num_examples))` can
return, as index draws: pairwise-distinct in-range indices, exactly
`min(len(lines), num_examples)` of them. -/
def ValidSample (sel : List Nat) (numLines numExamples : Nat) : Prop :=
  sel.Nodup ∧ sel.length = min numLines numExamples ∧ ∀ i ∈ sel, i < numLines

/-! ## Constraint vocabulary and pair sampling -/

/-- The fixed constraint-type list declared inside
`generate_synthetic_data`; a Lean constant, hence immutable. -/
def all_constraints : List String :=
  ["语义约束", "格式约束", "风格约束", "数值约束", "长度约束", "中文约束",
   "英文约束", "其他语言约束", "示例约束", "专业术语约束", "情感倾向约束",
   "原文约束", "符号约束", "词汇约束", "集合约束", "文本结构约束",
   "时间约束", "主题约束", "结构约束", "流程约束", "边界约束", "其他约束"]

/-- `random.sample(all_constraints, 2)` draws two distinct positions and
returns the elements there; the positions are the explicit randomness. -/
def samplePair (i j : Fin all_constraints.length) : String × String :=
  (all_constraints.get i, all_constraints.get j)

/-! ## Model client (`call_llm`) -/

/-- The single HTTP POST issued by `requests.post`, with the hard-coded
payload constants. The float temperature `0.7` is outside the embedding
(no claim touches it). -/
structure HttpRequest where
  url : String
  authBearer : String
  model : String
  messages : List (String × String)
  max_tokens : Nat
  timeoutSeconds : Nat

/-- Request as built by `call_llm`: fixed `max_tokens=1024` and
`timeout=120`. -/
def buildRequest (url key model : String) (messages : List (String × String)) :
    HttpRequest :=
  { url := url, authBearer := key, model := model, messages := messages,
    max_tokens := 1024, timeoutSeconds := 120 }

/-- What the network hands back for the one POST: a raised
`requests.exceptions.RequestException` (connection error, timeout, ...)
or a response with a status code and a body (`none` when
`response.json()` cannot decode it, which raises a `RequestException`
subclass). `raw` is `response.text`. -/
inductive HttpResult where
  | transportError : HttpResult
  | resp (status : Nat) (body : Option Json) (raw : String) : HttpResult

/-- The value `call_llm` produces: `failure`/`failureRaw` are the `return
None` paths (`failureRaw` after printing the raw body), `content` is the
extracted completion, `crash` an uncaught `TypeError` escaping the
function. -/
inductive CallResult where
  | failure : CallResult
  | failureRaw (raw : String) : CallResult
  | content (v : Json) : CallResult
  | crash : CallResult

/-- Result of one `call_llm` invocation: the returned value, how many
network requests were made, and the printed diagnostics. -/
structure CallOut where
  result : CallResult
  net : Nat
  log : List String

/-- The missing-credential diagnostic printed by `call_llm`. -/
def missingKeyMsg : String := "错误：缺少环境变量 LLM_API_KEY，请安全配置后再运行。"

/-- The `RequestException` diagnostic. -/
def requestFailMsg : String := "错误: API 请求失败"

/-- The response-structure diagnostic. -/
def schemaFailMsg : String := "错误: 解析 API 响应失败，响应结构可能不符合预期"

/-- `response_json['choices'][0]['message']['content']`. -/
def extractContent (body : Json) : Json.PyOut Json :=
  Json.bindPy (Json.bindPy (Json.bindPy (Json.getItemStr body "choices")
    (fun c => Json.getItemIdx c 0))
    (fun m => Json.getItemStr m "message"))
    (fun m => Json.getItemStr m "content")

/-- `call_llm`, with the credential and the network outcome explicit.
Missing credential returns `None` before any request. A transport error,
a non-2xx status (`raise_for_status`) or an undecodable body are caught
as `RequestException` and return `None`. A `KeyError`/`IndexError` while
drilling to the completion is caught, prints the raw body, and returns
`None`. A `TypeError` while drilling (non-dict body, non-subscriptable
node) is not caught: the call crashes. -/
def call_llm (apiKey : Option String) (net : HttpResult) : CallOut :=
  match apiKey with
  | none => ⟨.failure, 0, [missingKeyMsg]⟩
  | some _ =>
    match net with
    | .transportError => ⟨.failure, 1, [requestFailMsg]⟩
    | .resp status body raw =>
      if 400 ≤ status then ⟨.failure, 1, [requestFailMsg]⟩
      else
        match body with
        | none => ⟨.failure, 1, [requestFailMsg]⟩
        | some j =>
          match extractContent j with
          | .ok c => ⟨.content c, 1, []⟩
          | .keyError => ⟨.failureRaw raw, 1, [schemaFailMsg, "原始响应: " ++ raw]⟩
          | .indexError => ⟨.failureRaw raw, 1, [schemaFailMsg, "原始响应: " ++ raw]⟩
          | .typeError => ⟨.crash, 1, []⟩

/-! ## Generation loop (`generate_synthetic_data`) -/

/-- Loop state: the attempt counter indexes the per-attempt oracle
streams (client outcomes and `uuid.uuid4()` draws), `count` is
`generated_data_count`, `records` the records written so far, `file` the
raw bytes written to the output handle, `netCalls` the total number of
HTTP requests issued. -/
structure GenState where
  attempt : Nat
  count : Nat
  records : List Json
  file : String
  netCalls : Nat

/-- What one loop iteration produces: the next state, or the state at
which an uncaught exception aborted the run. -/
inductive StepOut where
  | ok (st : GenState) : StepOut
  | crashed (st : GenState) : StepOut

/-- The string appended after each record: the Python source literally
contains `'\\n'` (an escaped backslash), so the TWO characters `\` and
`n` are written — not a newline. -/
def sepLit : String := "\\n"

/-- The record as persisted: the parsed object with a fresh identifier
assigned to `id` (`new_data['id'] = str(uuid.uuid4())`). -/
def persistRecord (fields : List (String × Json)) (uuid : String) : Json :=
  .obj (Json.pySet fields "id" (.str uuid))

/-- One iteration of the `while` body, given the `call_llm` outcome and
the `uuid.uuid4()` draw for this attempt. A falsy return value or a
caught failure skips; unparseable content skips; a parsed value missing
`messages` or `condition` skips; a parsed object with both keys is
tagged and written followed by `sepLit`, and the counter increments.
Python type errors crash: `json.loads` applied to a truthy non-string,
`in` applied to a non-iterable, and item assignment on a non-dict. -/
def stepGen (parse : String → Option Json) (out : CallOut) (uuid : String)
    (st : GenState) : StepOut :=
  let st1 : GenState :=
    { st with attempt := st.attempt + 1, netCalls := st.netCalls + out.net }
  match out.result with
  | .crash => .crashed st1
  | .failure => .ok st1
  | .failureRaw _ => .ok st1
  | .content v =>
    if v.truthy then
      match v with
      | .str s =>
        match parse s with
        | none => .ok st1
        | some j =>
          match Json.hasKeyPy "messages" j with
          | .typeErr => .crashed st1
          | .no => .ok st1
          | .yes =>
            match Json.hasKeyPy "condition" j with
            | .typeErr => .crashed st1
            | .no => .ok st1
            | .yes =>
              match j with
              | .obj fields =>
                let r := persistRecord fields uuid
                .ok { st1 with
                      count := st1.count + 1,
                      records := st1.records ++ [r],
                      file := st1.file ++ Json.dumps r ++ sepLit }
              | _ => .crashed st1
      | _ => .crashed st1
    else .ok st1

/-- Outcome of running the `while` loop with bounded fuel: normal exit
(`done`), abort by uncaught exception (`crashed`), or fuel exhausted
while the guard still holds (`outOfFuel`) — the real loop simply keeps
running in that case. `aborted` is the early `return` taken before the
loop when no seeds were loaded. -/
inductive RunResult where
  | done (st : GenState) : RunResult
  | crashed (st : GenState) : RunResult
  | outOfFuel (st : GenState) : RunResult
  | aborted : RunResult

/-- The state carried by a run outcome. -/
def RunResult.state : RunResult → GenState
  | .done st => st
  | .crashed st => st
  | .outOfFuel st => st
  | .aborted => ⟨0, 0, [], "", 0⟩

/-- Whether the loop exited normally through its guard. -/
def RunResult.isDone : RunResult → Bool
  | .done _ => true
  | _ => false

/-- Whether the bounded run merely ran out of fuel (the unbounded
source loop would still be running). -/
def RunResult.isOutOfFuel : RunResult → Bool
  | .outOfFuel _ => true
  | _ => false

/-- The `while generated_data_count < num_to_generate` loop, fuel-bounded.
The guard is evaluated before consuming fuel, exactly as the source
checks it before each iteration. -/
def runGen (parse : String → Option Json) (client : Nat → CallOut)
    (uuids : Nat → String) (target : Nat) : Nat → GenState → RunResult
  | 0, st => if st.count < target then .outOfFuel st else .done st
  | fuel + 1, st =>
    if st.count < target then
      match stepGen parse (client st.attempt) (uuids st.attempt) st with
      | .ok st1 => runGen parse client uuids target fuel st1
      | .crashed st1 => .crashed st1
    else .done st

/-- The fresh state at loop entry: `generated_data_count = 0`, output
file just opened in `'w'` mode (truncated to empty). -/
def startState : GenState := ⟨0, 0, [], "", 0⟩

/-- Result of `generate_synthetic_data`: whether the output file was
ever opened (the `with open(output_path, 'w')` is only reached after
seed loading succeeds), the loop outcome, and the seed-loader log. -/
structure GenRun where
  openedOutput : Bool
  result : RunResult
  seedLog : List String

/-- `generate_synthetic_data`: load seeds (the caller passes
`num_examples=3`, reflected in `sel` via `ValidSample`), return at once
when none were loaded — before `open(output_path, 'w')` — and otherwise
open (truncate) the output and run the generation loop. The system
prompt is built once from the seeds; the client stream already carries
each attempt's `call_llm` outcome, so the prompt string does not appear
in the state. -/
def generate_synthetic_data (parse : String → Option Json)
    (filepath : String) (file : Option (List String)) (sel : List Nat)
    (client : Nat → CallOut) (uuids : Nat → String)
    (target fuel : Nat) : GenRun :=
  match load_seed_examples parse filepath file sel with
  | (seeds, log) =>
    if seeds.isEmpty then ⟨false, .aborted, log⟩
    else ⟨true, runGen parse client uuids target fuel startState, log⟩

/-- The real (unbounded) loop terminates exactly when some fuel bound
makes the bounded run finish — normally, by early return, or by crash. -/
def GenTerminates (parse : String → Option Json) (filepath : String)
    (file : Option (List String)) (sel : List Nat)
    (client : Nat → CallOut) (uuids : Nat → String) (target : Nat) : Prop :=
  ∃ fuel, ¬ (generate_synthetic_data parse filepath file sel client uuids
      target fuel).result.isOutOfFuel

/-! ## Helper lemmas -/

/-- `new_data['id'] = u` makes the `id` lookup return `u`. -/
theorem lookupField_pySet_self (fields : List (String × Json)) (key : String)
    (v : Json) : Json.lookupField (Json.pySet fields key v) key = some v := by
  unfold Json.pySet
  split
  · rename_i h
    induction fields with
    | nil => simp at h
    | cons f fs ih =>
      simp only [List.any_cons, Bool.or_eq_true, decide_eq_true_eq] at h
      by_cases hf : f.1 = key
      · simp only [List.map_cons, if_pos hf, Json.lookupField]
        rw [List.find?_cons_of_pos _ (by simp)]
        rfl
      · have h2 : fs.any (fun f => f.1 = key) = true := by
          rcases h with h | h
          · exact absurd h hf
          · simpa using h
        simp only [List.map_cons, if_neg hf, Json.lookupField]
        rw [List.find?_cons_of_neg _ (by simpa using hf)]
        simpa [Json.lookupField] using ih h2
  · rename_i h
    induction fields with
    | nil =>
      simp [Json.lookupField]
    | cons f fs ih =>
      simp only [List.any_cons, Bool.or_eq_true, decide_eq_true_eq, not_or] at h
      simp only [List.cons_append, Json.lookupField]
      rw [List.find?_cons_of_neg _ (by simpa using h.1)]
      simpa [Json.lookupField] using ih (by simpa using h.2)

/-- `new_data['id'] = u` leaves every other key's lookup unchanged. -/
theorem lookupField_pySet_other (fields : List (String × Json)) (key k : String)
    (v : Json) (hk : k ≠ key) :
    Json.lookupField (Json.pySet fields key v) k = Json.lookupField fields k := by
  unfold Json.pySet
  split
  all_goals rename_i hany; clear hany
  · induction fields with
    | nil => simp
    | cons f fs ih =>
      by_cases hf : f.1 = key
      · simp only [List.map_cons, if_pos hf, Json.lookupField]
        rw [List.find?_cons_of_neg _ (by simpa using Ne.symm hk),
          List.find?_cons_of_neg _ (by simp [hf]; exact Ne.symm hk)]
        simpa [Json.lookupField] using ih
      · by_cases hfk : f.1 = k
        · simp only [List.map_cons, if_neg hf, Json.lookupField]
          rw [List.find?_cons_of_pos _ (by simpa using hfk),
            List.find?_cons_of_pos _ (by simpa using hfk)]
        · simp only [List.map_cons, if_neg hf, Json.lookupField]
          rw [List.find?_cons_of_neg _ (by simpa using hfk),
            List.find?_cons_of_neg _ (by simpa using hfk)]
          simpa [Json.lookupField] using ih
  · induction fields with
    | nil => simp [Json.lookupField, Ne.symm hk]
    | cons f fs ih =>
      by_cases hfk : f.1 = k
      · simp only [List.cons_append, Json.lookupField]
        rw [List.find?_cons_of_pos _ (by simpa using hfk),
          List.find?_cons_of_pos _ (by simpa using hfk)]
      · simp only [List.cons_append, Json.lookupField]
        rw [List.find?_cons_of_neg _ (by simpa using hfk),
          List.find?_cons_of_neg _ (by simpa using hfk)]
        simpa [Json.lookupField] using ih

/-- `new_data['id'] = u` does not remove any other key. -/
theorem pySet_preserves_keys (fields : List (String × Json)) (key k : String)
    (v : Json) (hk : k ≠ key)
    (h : fields.any (fun f => f.1 = k) = true) :
    (Json.pySet fields key v).any (fun f => f.1 = k) = true := by
  unfold Json.pySet
  split
  · simp only [List.any_map, List.any_eq_true, Function.comp] at h ⊢
    obtain ⟨f, hf, hfk⟩ := h
    simp only [decide_eq_true_eq] at hfk
    refine ⟨f, hf, ?_⟩
    simp [hfk, hk]
  · simp only [List.any_append, Bool.or_eq_true]
    exact Or.inl h

/-- A non-blank selected line that fails to parse aborts the whole pass:
the `JSONDecodeError` escapes the `for` loop. -/
theorem parseSelected_none (parse : String → Option Json) (ls : List String)
    (h : ∃ l ∈ ls, pyIsBlank l = false ∧ parse l = none) :
    parseSelected parse ls = none := by
  induction ls with
  | nil => simp at h
  | cons l ls ih =>
    obtain ⟨x, hx, hxb, hxp⟩ := h
    simp only [List.mem_cons] at hx
    unfold parseSelected
    rcases hx with rfl | hx
    · rw [if_neg (by simp [hxb]), hxp]
    · by_cases hb : pyIsBlank l
      · rw [if_pos hb]
        exact ih ⟨x, hx, hxb, hxp⟩
      · rw [if_neg hb]
        cases hp : parse l with
        | none => rfl
        | some j => rw [ih ⟨x, hx, hxb, hxp⟩]; rfl

/-- When every selected non-blank line parses, the pass collects exactly
the parses of the non-blank lines, in order. -/
theorem parseSelected_success (parse : String → Option Json) (ls : List String)
    (h : ∀ l ∈ ls, pyIsBlank l = false → (parse l).isSome) :
    parseSelected parse ls =
      some (ls.filterMap (fun l => if pyIsBlank l then none else parse l)) := by
  induction ls with
  | nil => simp [parseSelected]
  | cons l ls ih =>
    unfold parseSelected
    by_cases hb : pyIsBlank l
    · rw [if_pos hb]
      rw [ih (fun x hx => h x (List.mem_cons_of_mem _ hx))]
      simp [List.filterMap_cons, hb]
    · rw [if_neg hb]
      have hs := h l (List.mem_cons_self _ _) (by simpa using hb)
      cases hp : parse l with
      | none => rw [hp] at hs; simp at hs
      | some j =>
        rw [ih (fun x hx => h x (List.mem_cons_of_mem _ hx))]
        simp [List.filterMap_cons, hb, hp]

/-- Reading every position of a list in order reproduces the list. -/
theorem map_getD_range (L : List String) :
    (List.range L.length).map (fun i => L.getD i "") = L := by
  induction L with
  | nil => simp
  | cons a L ih =>
    rw [List.length_cons, List.range_succ_eq_map, List.map_cons, List.map_map]
    have hc : ((fun i => (a :: L).getD i "") ∘ Nat.succ) = fun i => L.getD i "" := by
      funext i
      simp
    rw [List.getD_cons_zero, hc, ih]

/-- `filterMap` keeps every element when the function never drops one. -/
theorem length_filterMap_all_some {α β : Type} (f : α → Option β)
    (L : List α) (h : ∀ x ∈ L, (f x).isSome) :
    (L.filterMap f).length = L.length := by
  induction L with
  | nil => simp
  | cons a L ih =>
    have ha := h a (List.mem_cons_self _ _)
    cases hf : f a with
    | none => rw [hf] at ha; simp at ha
    | some b =>
      rw [List.filterMap_cons, hf]
      simp [ih (fun x hx => h x (List.mem_cons_of_mem _ hx))]

/-! ## Concrete instantiations used in witnesses and counterexamples -/

/-- The well-formed record shape used by mocked runs. -/
def goodRecordFields : List (String × Json) :=
  [("messages", .arr [.str "q"]), ("condition", .arr [])]

/-- Mocked `json.loads`: two known texts decode to a well-formed record,
the text `5` decodes to the JSON number 5, everything else fails. -/
def mockParse : String → Option Json
  | "A" => some (.obj goodRecordFields)
  | "G" => some (.obj goodRecordFields)
  | "5" => some (.num 5)
  | _ => none

/-- Mocked client: always returns the decodable text `G`. -/
def goodClient : Nat → CallOut := fun _ => ⟨.content (.str "G"), 1, []⟩

/-- Mocked client: always returns the text `5`, which decodes to a
non-object JSON value. -/
def numClient : Nat → CallOut := fun _ => ⟨.content (.str "5"), 1, []⟩

/-- Mocked client: non-JSON text on the first attempt, valid JSON on
every later attempt. -/
def badThenGoodClient : Nat → CallOut := fun n =>
  if n = 0 then ⟨.content (.str "X"), 1, []⟩ else ⟨.content (.str "G"), 1, []⟩

/-- Mocked `uuid.uuid4()` stream: decimal digits of the attempt index. -/
def uuidsDigits : Nat → String := fun n => toString n

/-- Mocked `uuid.uuid4()` stream with easily provable injectivity. -/
def uuidsRepl : Nat → String := fun n => String.mk (List.replicate n 'u')

/-- `uuidsRepl` draws pairwise-distinct identifiers. -/
theorem uuidsRepl_injective : Function.Injective uuidsRepl := by
  intro a b h
  have : (List.replicate a 'u').length = (List.replicate b 'u').length := by
    have hd := congrArg String.data h
    simpa [uuidsRepl] using congrArg List.length hd
  simpa using this

/-- Seed loading failure makes `generate_synthetic_data` return before
`open(output_path, 'w')` is reached. Shared by several claims. -/
theorem generate_abort_of_no_seeds (parse : String → Option Json)
    (filepath : String) (file : Option (List String)) (sel : List Nat)
    (client : Nat → CallOut) (uuids : Nat → String) (target fuel : Nat)
    (h : (load_seed_examples parse filepath file sel).1 = []) :
    generate_synthetic_data parse filepath file sel client uuids target fuel =
      ⟨false, .aborted, (load_seed_examples parse filepath file sel).2⟩ := by
  unfold generate_synthetic_data
  rcases hL : load_seed_examples parse filepath file sel with ⟨seeds, log⟩
  rw [hL] at h
  simp only at h
  subst h
  simp

/-! ## C10 -/

/-- C10: when seed loading returns an empty seed set,
`generate_synthetic_data` returns before the output file is ever opened
(`openedOutput = false` — the `with open(output_path, 'w')` truncation
never executes, so a pre-existing file at the output path is left
untouched), with no record persisted and no network call made. -/
theorem no_seeds_output_untouched (parse : String → Option Json)
    (filepath : String) (file : Option (List String)) (sel : List Nat)
    (client : Nat → CallOut) (uuids : Nat → String) (target fuel : Nat)
    (h : (load_seed_examples parse filepath file sel).1 = []) :
    (generate_synthetic_data parse filepath file sel client uuids target
        fuel).openedOutput = false ∧
    (generate_synthetic_data parse filepath file sel client uuids target
        fuel).result = .aborted ∧
    (generate_synthetic_data parse filepath file sel client uuids target
        fuel).result.state.records = [] ∧
    (generate_synthetic_data parse filepath file sel client uuids target
        fuel).result.state.netCalls = 0 := by
  rw [generate_abort_of_no_seeds parse filepath file sel client uuids target
    fuel h]
  exact ⟨rfl, rfl, rfl, rfl⟩

/-- Witness for C10 at a concrete input: missing seed file, target 50. -/
theorem no_seeds_output_untouched_witness :
    (load_seed_examples mockParse "10.9.json" none []).1 = [] ∧
    ((generate_synthetic_data mockParse "10.9.json" none [] goodClient
        uuidsDigits 50 7).openedOutput = false ∧
      (generate_synthetic_data mockParse "10.9.json" none [] goodClient
        uuidsDigits 50 7).result = .aborted ∧
      (generate_synthetic_data mockParse "10.9.json" none [] goodClient
        uuidsDigits 50 7).result.state.records = [] ∧
      (generate_synthetic_data mockParse "10.9.json" none [] goodClient
        uuidsDigits 50 7).result.state.netCalls = 0) :=
  ⟨rfl, no_seeds_output_untouched mockParse "10.9.json" none [] goodClient
    uuidsDigits 50 7 rfl⟩

/-! ## C5 -/

/-- C5 as stated is false: a malformed line aborts the load only when the
random draw SELECTS it. Concrete input: the file has the lines
`["bad", "A"]`, line 0 malformed and non-blank; a valid draw for
`num_examples = 1` picks only line 1; the load returns one seed instead
of an empty result. -/
theorem malformed_line_not_always_abort :
    ValidSample [1] 2 1 ∧
    pyIsBlank "bad" = false ∧ mockParse "bad" = none ∧
    (load_seed_examples mockParse "10.9.json" (some ["bad", "A"]) [1]).1.length
      = 1 := by
  refine ⟨⟨by decide, by decide, by decide⟩, by decide, rfl, rfl⟩

/-- C5 (amended): a malformed non-blank line among the SELECTED lines
aborts the whole load (empty result, logged message, no partial
recovery); a missing file likewise yields an empty result with a logged
message; and an empty seed result makes the caller return before any
generation attempt. -/
theorem seed_load_failure_modes :
    (∀ (parse : String → Option Json) (filepath : String)
        (lines : List String) (sel : List Nat),
      (∃ i ∈ sel, pyIsBlank (lines.getD i "") = false ∧
          parse (lines.getD i "") = none) →
      load_seed_examples parse filepath (some lines) sel =
        ([], ["错误: 种子文件 " ++ filepath ++ " 格式不正确，无法解析为 JSON。"])) ∧
    (∀ (parse : String → Option Json) (filepath : String) (sel : List Nat),
      load_seed_examples parse filepath none sel =
        ([], ["错误: 种子文件 " ++ filepath ++ " 未找到。"])) ∧
    (∀ (parse : String → Option Json) (filepath : String)
        (file : Option (List String)) (sel : List Nat) (client : Nat → CallOut)
        (uuids : Nat → String) (target fuel : Nat),
      (load_seed_examples parse filepath file sel).1 = [] →
      (generate_synthetic_data parse filepath file sel client uuids target
          fuel).openedOutput = false ∧
      (generate_synthetic_data parse filepath file sel client uuids target
          fuel).result = .aborted) := by
  refine ⟨?_, ?_, ?_⟩
  · intro parse filepath lines sel h
    obtain ⟨i, hi, hb, hp⟩ := h
    have hmem : lines.getD i "" ∈ sel.map (fun i => lines.getD i "") :=
      List.mem_map_of_mem (fun i => lines.getD i "") hi
    simp only [load_seed_examples,
      parseSelected_none parse _ ⟨lines.getD i "", hmem, hb, hp⟩]
  · intro parse filepath sel
    rfl
  · intro parse filepath file sel client uuids target fuel h
    rw [generate_abort_of_no_seeds parse filepath file sel client uuids target
      fuel h]
    exact ⟨rfl, rfl⟩

/-- Witness for C5 (amended) at concrete inputs: a selected malformed
line, a missing file, and the caller abort. -/
theorem seed_load_failure_modes_witness :
    ((∃ i ∈ [0], pyIsBlank (["bad", "A"].getD i "") = false ∧
        mockParse (["bad", "A"].getD i "") = none) ∧
      load_seed_examples mockParse "10.9.json" (some ["bad", "A"]) [0] =
        ([], ["错误: 种子文件 " ++ "10.9.json" ++ " 格式不正确，无法解析为 JSON。"])) ∧
    load_seed_examples mockParse "10.9.json" none [0] =
      ([], ["错误: 种子文件 " ++ "10.9.json" ++ " 未找到。"]) ∧
    ((load_seed_examples mockParse "10.9.json" none [0]).1 = [] ∧
      (generate_synthetic_data mockParse "10.9.json" none [0] goodClient
        uuidsDigits 50 7).openedOutput = false) :=
  ⟨⟨⟨0, by decide, by decide, rfl⟩,
      seed_load_failure_modes.1 mockParse "10.9.json" ["bad", "A"] [0]
        ⟨0, by decide, by decide, rfl⟩⟩,
    seed_load_failure_modes.2.1 mockParse "10.9.json" [0],
    rfl,
    (seed_load_failure_modes.2.2 mockParse "10.9.json" none [0] goodClient
      uuidsDigits 50 7 rfl).1⟩

/-! ## C4 -/

/-- C4 as stated is false: the sample is drawn over raw LINES before the
blank check, so a blank line can consume a slot. Concrete input: the
file has the lines `["A", "G", " "]` — two available seed records and
one blank line — and `n = 2`; the (valid) draw picks lines 2 and 0; the
blank selected line is dropped and only 1 seed is returned, not
`min(2, 2) = 2`. -/
theorem seed_sample_can_lose_records :
    ValidSample [2, 0] 3 2 ∧
    (["A", "G", " "].filter (fun l => !pyIsBlank l)).length = 2 ∧
    (∀ l ∈ ["A", "G", " "], pyIsBlank l = true ∨ (mockParse l).isSome) ∧
    (load_seed_examples mockParse "10.9.json" (some ["A", "G", " "])
        [2, 0]).1.length = 1 ∧
    ¬ (1 = min 2 2) := by
  refine ⟨⟨by decide, by decide, by decide⟩, by decide, ?_, rfl, by decide⟩
  intro l hl
  fin_cases hl
  · exact Or.inr rfl
  · exact Or.inr rfl
  · exact Or.inl (by decide)

/-- C4 (amended): the draw is `min(len(lines), n)` raw lines without
replacement, and selected blank lines are dropped after the draw. When
no line of the file is blank and every selected line parses, exactly
`min(len(lines), n)` seed records are returned; when moreover the file
has at most `n` lines, the result is a permutation of the parses of ALL
lines — every available seed used exactly once. -/
theorem seed_sample_amended (parse : String → Option Json)
    (filepath : String) (lines : List String) (sel : List Nat) (n : Nat)
    (hS : ValidSample sel lines.length n)
    (hB : ∀ l ∈ lines, pyIsBlank l = false)
    (hP : ∀ l ∈ lines, (parse l).isSome) :
    (load_seed_examples parse filepath (some lines) sel).1.length =
      min lines.length n ∧
    (lines.length ≤ n →
      (load_seed_examples parse filepath (some lines) sel).1.Perm
        (lines.filterMap parse)) := by
  obtain ⟨hnd, hlen, hbound⟩ := hS
  have hmem : ∀ l ∈ sel.map (fun i => lines.getD i ""), l ∈ lines := by
    intro l hl
    obtain ⟨i, hi, rfl⟩ := List.mem_map.1 hl
    rw [List.getD_eq_getElem lines "" (hbound i hi)]
    exact List.getElem_mem _
  have hsucc := parseSelected_success parse (sel.map (fun i => lines.getD i ""))
    (fun l hl _ => hP l (hmem l hl))
  have hcongr : (sel.map (fun i => lines.getD i "")).filterMap
      (fun l => if pyIsBlank l then none else parse l) =
      (sel.map (fun i => lines.getD i "")).filterMap parse := by
    refine List.filterMap_congr ?_
    intro l hl
    rw [if_neg (by simp [hB l (hmem l hl)])]
  have hload : (load_seed_examples parse filepath (some lines) sel).1 =
      (sel.map (fun i => lines.getD i "")).filterMap parse := by
    simp only [load_seed_examples, hsucc, hcongr]
  constructor
  · rw [hload, length_filterMap_all_some parse _ (fun l hl => hP l (hmem l hl)),
      List.length_map, hlen]
  · intro hle
    have hperm : sel.Perm (List.range lines.length) := by
      have hsub : sel.Subperm (List.range lines.length) :=
        hnd.subperm (fun i hi => List.mem_range.2 (hbound i hi))
      refine hsub.perm_of_length_le ?_
      rw [List.length_range, hlen]
      omega
    have hlinesperm : (sel.map (fun i => lines.getD i "")).Perm lines := by
      have := hperm.map (fun i => lines.getD i "")
      rwa [map_getD_range lines] at this
    rw [hload]
    exact hlinesperm.filterMap parse

/-- Witness for C4 (amended) at a concrete input: two parseable lines,
no blanks, `n = 3`, the draw `[1, 0]`. -/
theorem seed_sample_amended_witness :
    (ValidSample [1, 0] 2 3 ∧
      (∀ l ∈ ["A", "G"], pyIsBlank l = false) ∧
      (∀ l ∈ ["A", "G"], (mockParse l).isSome)) ∧
    (load_seed_examples mockParse "10.9.json" (some ["A", "G"]) [1, 0]).1.length
      = min 2 3 ∧
    ((2 : Nat) ≤ 3 →
      (load_seed_examples mockParse "10.9.json" (some ["A", "G"])
          [1, 0]).1.Perm (["A", "G"].filterMap mockParse)) := by
  have hS : ValidSample [1, 0] 2 3 := ⟨by decide, by decide, by decide⟩
  have hB : ∀ l ∈ ["A", "G"], pyIsBlank l = false := by
    intro l hl
    fin_cases hl <;> decide
  have hP : ∀ l ∈ ["A", "G"], (mockParse l).isSome := by
    intro l hl
    fin_cases hl <;> rfl
  exact ⟨⟨hS, hB, hP⟩,
    seed_sample_amended mockParse "10.9.json" ["A", "G"] [1, 0] 3 hS hB hP⟩

/-! ## C7 -/

/-- C7: the constraint vocabulary holds exactly 22 pairwise-distinct
labels (it is a Lean constant, hence never mutated during a run), and
every draw `random.sample(all_constraints, 2)` — i.e. the elements at
any two distinct positions — yields two distinct labels, both members of
the vocabulary. -/
theorem constraint_pair_two_distinct_labels
    (i j : Fin all_constraints.length) (hij : i ≠ j) :
    all_constraints.length = 22 ∧ all_constraints.Nodup ∧
    (samplePair i j).1 ≠ (samplePair i j).2 ∧
    (samplePair i j).1 ∈ all_constraints ∧
    (samplePair i j).2 ∈ all_constraints := by
  have hnd : all_constraints.Nodup := by decide
  refine ⟨rfl, hnd, ?_, List.get_mem _ _ _, List.get_mem _ _ _⟩
  intro heq
  exact hij (hnd.get_inj_iff.mp heq)

/-- Witness for C7 at the concrete draw of positions 0 and 1. -/
theorem constraint_pair_two_distinct_labels_witness :
    ((⟨0, by decide⟩ : Fin all_constraints.length) ≠ ⟨1, by decide⟩) ∧
    (all_constraints.length = 22 ∧ all_constraints.Nodup ∧
      (samplePair ⟨0, by decide⟩ ⟨1, by decide⟩).1 ≠
        (samplePair ⟨0, by decide⟩ ⟨1, by decide⟩).2 ∧
      (samplePair ⟨0, by decide⟩ ⟨1, by decide⟩).1 ∈ all_constraints ∧
      (samplePair ⟨0, by decide⟩ ⟨1, by decide⟩).2 ∈ all_constraints) :=
  ⟨by decide,
    constraint_pair_two_distinct_labels ⟨0, by decide⟩ ⟨1, by decide⟩
      (by decide)⟩

/-! ## Step-level characterization of the generation loop -/

/-- A `None` from `call_llm` skips: only the attempt index and the
network-call count move. -/
theorem stepGen_fail (parse : String → Option Json) (out : CallOut)
    (uuid : String) (st : GenState) (h : out.result = .failure) :
    stepGen parse out uuid st =
      .ok ⟨st.attempt + 1, st.count, st.records, st.file,
        st.netCalls + out.net⟩ := by
  unfold stepGen
  rw [h]

/-- A `None` (with raw body printed) from `call_llm` skips likewise. -/
theorem stepGen_failRaw (parse : String → Option Json) (out : CallOut)
    (uuid : String) (st : GenState) (raw : String)
    (h : out.result = .failureRaw raw) :
    stepGen parse out uuid st =
      .ok ⟨st.attempt + 1, st.count, st.records, st.file,
        st.netCalls + out.net⟩ := by
  unfold stepGen
  rw [h]

/-- A falsy returned value (e.g. the empty string) takes the
`调用 LLM 失败` branch and skips. -/
theorem stepGen_falsy (parse : String → Option Json) (out : CallOut)
    (uuid : String) (st : GenState) (v : Json)
    (h : out.result = .content v) (hf : v.truthy = false) :
    stepGen parse out uuid st =
      .ok ⟨st.attempt + 1, st.count, st.records, st.file,
        st.netCalls + out.net⟩ := by
  unfold stepGen
  rw [h]
  simp [hf]

/-- Unparseable returned text is caught (`JSONDecodeError`) and skips. -/
theorem stepGen_noparse (parse : String → Option Json) (out : CallOut)
    (uuid : String) (st : GenState) (s : String)
    (h : out.result = .content (.str s)) (hne : s ≠ "")
    (hp : parse s = none) :
    stepGen parse out uuid st =
      .ok ⟨st.attempt + 1, st.count, st.records, st.file,
        st.netCalls + out.net⟩ := by
  unfold stepGen
  rw [h]
  simp only [Json.truthy, hne, decide_not, decide_False, Bool.not_false,
    if_true, hp]

/-- A parsed value on which the `messages` containment test answers
`no` skips without persisting. -/
theorem stepGen_no_messages (parse : String → Option Json) (out : CallOut)
    (uuid : String) (st : GenState) (s : String) (j : Json)
    (h : out.result = .content (.str s)) (hne : s ≠ "")
    (hp : parse s = some j)
    (hm : Json.hasKeyPy "messages" j = .no) :
    stepGen parse out uuid st =
      .ok ⟨st.attempt + 1, st.count, st.records, st.file,
        st.netCalls + out.net⟩ := by
  unfold stepGen
  rw [h]
  simp only [Json.truthy, hne, decide_not, decide_False, Bool.not_false,
    if_true, hp, hm]

/-- A parsed value containing `messages` but not `condition` skips
without persisting. -/
theorem stepGen_no_condition (parse : String → Option Json) (out : CallOut)
    (uuid : String) (st : GenState) (s : String) (j : Json)
    (h : out.result = .content (.str s)) (hne : s ≠ "")
    (hp : parse s = some j)
    (hm : Json.hasKeyPy "messages" j = .yes)
    (hc : Json.hasKeyPy "condition" j = .no) :
    stepGen parse out uuid st =
      .ok ⟨st.attempt + 1, st.count, st.records, st.file,
        st.netCalls + out.net⟩ := by
  unfold stepGen
  rw [h]
  simp only [Json.truthy, hne, decide_not, decide_False, Bool.not_false,
    if_true, hp, hm, hc]

/-- The persisting branch: a truthy string response that parses to an
object carrying both required keys is tagged with the fresh identifier,
serialized, written followed by `sepLit`, and counted. -/
theorem stepGen_persist (parse : String → Option Json) (out : CallOut)
    (uuid : String) (st : GenState) (s : String)
    (fields : List (String × Json))
    (h : out.result = .content (.str s)) (hne : s ≠ "")
    (hp : parse s = some (.obj fields))
    (hm : Json.hasKeyPy "messages" (.obj fields) = .yes)
    (hc : Json.hasKeyPy "condition" (.obj fields) = .yes) :
    stepGen parse out uuid st =
      .ok ⟨st.attempt + 1, st.count + 1,
        st.records ++ [persistRecord fields uuid],
        st.file ++ Json.dumps (persistRecord fields uuid) ++ sepLit,
        st.netCalls + out.net⟩ := by
  unfold stepGen
  rw [h]
  simp only [Json.truthy, hne, decide_not, decide_False, Bool.not_false,
    if_true, hp, hm, hc]

/-- A truthy non-string return value crashes the run:
`json.loads(llm_response_str)` raises an uncaught `TypeError`. -/
theorem stepGen_crash_nonstring (parse : String → Option Json) (out : CallOut)
    (uuid : String) (st : GenState) (v : Json)
    (h : out.result = .content v) (ht : v.truthy = true)
    (hv : ∀ s, v ≠ .str s) :
    stepGen parse out uuid st =
      .crashed ⟨st.attempt + 1, st.count, st.records, st.file,
        st.netCalls + out.net⟩ := by
  unfold stepGen
  rw [h]
  cases v with
  | str s => exact absurd rfl (hv s)
  | null => simp [Json.truthy] at ht
  | bool b => simp [ht]
  | num n => simp [ht]
  | arr elems => simp [ht]
  | obj fields => simp [ht]

/-- A parsed value on which the `messages` containment test itself
raises (`"messages" in new_data` with a non-iterable value) crashes the
run. -/
theorem stepGen_crash_keytest (parse : String → Option Json) (out : CallOut)
    (uuid : String) (st : GenState) (s : String) (j : Json)
    (h : out.result = .content (.str s)) (hne : s ≠ "")
    (hp : parse s = some j)
    (hm : Json.hasKeyPy "messages" j = .typeErr) :
    stepGen parse out uuid st =
      .crashed ⟨st.attempt + 1, st.count, st.records, st.file,
        st.netCalls + out.net⟩ := by
  unfold stepGen
  rw [h]
  simp only [Json.truthy, hne, decide_not, decide_False, Bool.not_false,
    if_true, hp, hm]

/-- The `condition` containment test can likewise raise and crash the
run. -/
theorem stepGen_crash_condtest (parse : String → Option Json) (out : CallOut)
    (uuid : String) (st : GenState) (s : String) (j : Json)
    (h : out.result = .content (.str s)) (hne : s ≠ "")
    (hp : parse s = some j)
    (hm : Json.hasKeyPy "messages" j = .yes)
    (hc : Json.hasKeyPy "condition" j = .typeErr) :
    stepGen parse out uuid st =
      .crashed ⟨st.attempt + 1, st.count, st.records, st.file,
        st.netCalls + out.net⟩ := by
  unfold stepGen
  rw [h]
  simp only [Json.truthy, hne, decide_not, decide_False, Bool.not_false,
    if_true, hp, hm, hc]

/-- A non-object value that passes both containment tests (a list or a
string containing both key texts) crashes at `new_data['id'] = ...`. -/
theorem stepGen_crash_assign (parse : String → Option Json) (out : CallOut)
    (uuid : String) (st : GenState) (s : String) (j : Json)
    (h : out.result = .content (.str s)) (hne : s ≠ "")
    (hp : parse s = some j)
    (hm : Json.hasKeyPy "messages" j = .yes)
    (hc : Json.hasKeyPy "condition" j = .yes)
    (hobj : ∀ fields, j ≠ .obj fields) :
    stepGen parse out uuid st =
      .crashed ⟨st.attempt + 1, st.count, st.records, st.file,
        st.netCalls + out.net⟩ := by
  cases j with
  | obj fields => exact absurd rfl (hobj fields)
  | null => simp [Json.hasKeyPy] at hm
  | bool b => simp [Json.hasKeyPy] at hm
  | num n => simp [Json.hasKeyPy] at hm
  | str t =>
    unfold stepGen
    rw [h]
    simp only [Json.truthy, hne, decide_not, decide_False, Bool.not_false,
      if_true, hp, hm, hc]
  | arr elems =>
    unfold stepGen
    rw [h]
    simp only [Json.truthy, hne, decide_not, decide_False, Bool.not_false,
      if_true, hp, hm, hc]

/-- Full characterization of a non-crashing iteration: the attempt index
and network total always advance; either nothing else changes (a skipped
attempt), or the response was a string parsing to an object holding both
required keys, and exactly that record — tagged with this attempt's
identifier — was appended to the records and to the file. -/
theorem stepGen_ok_cases (parse : String → Option Json) (out : CallOut)
    (uuid : String) (st st1 : GenState)
    (h : stepGen parse out uuid st = .ok st1) :
    st1.attempt = st.attempt + 1 ∧ st1.netCalls = st.netCalls + out.net ∧
    ((st1.count = st.count ∧ st1.records = st.records ∧ st1.file = st.file) ∨
      (∃ s fields, out.result = .content (.str s) ∧
        parse s = some (.obj fields) ∧
        Json.hasKeyPy "messages" (.obj fields) = .yes ∧
        Json.hasKeyPy "condition" (.obj fields) = .yes ∧
        st1.count = st.count + 1 ∧
        st1.records = st.records ++ [persistRecord fields uuid] ∧
        st1.file = st.file ++ Json.dumps (persistRecord fields uuid) ++ sepLit)) := by
  cases hres : out.result with
  | crash =>
    unfold stepGen at h
    rw [hres] at h
    simp at h
  | failure =>
    rw [stepGen_fail parse out uuid st hres] at h
    cases h
    exact ⟨rfl, rfl, Or.inl ⟨rfl, rfl, rfl⟩⟩
  | failureRaw raw =>
    rw [stepGen_failRaw parse out uuid st raw hres] at h
    cases h
    exact ⟨rfl, rfl, Or.inl ⟨rfl, rfl, rfl⟩⟩
  | content v =>
    by_cases ht : v.truthy = true
    · cases v with
      | str s =>
        have hne : s ≠ "" := by simpa [Json.truthy] using ht
        cases hp : parse s with
        | none =>
          rw [stepGen_noparse parse out uuid st s hres hne hp] at h
          cases h
          exact ⟨rfl, rfl, Or.inl ⟨rfl, rfl, rfl⟩⟩
        | some j =>
          cases hm : Json.hasKeyPy "messages" j with
          | typeErr =>
            rw [stepGen_crash_keytest parse out uuid st s j hres hne hp hm] at h
            simp at h
          | no =>
            rw [stepGen_no_messages parse out uuid st s j hres hne hp hm] at h
            cases h
            exact ⟨rfl, rfl, Or.inl ⟨rfl, rfl, rfl⟩⟩
          | yes =>
            cases hc : Json.hasKeyPy "condition" j with
            | typeErr =>
              rw [stepGen_crash_condtest parse out uuid st s j hres hne hp hm
                hc] at h
              simp at h
            | no =>
              rw [stepGen_no_condition parse out uuid st s j hres hne hp hm
                hc] at h
              cases h
              exact ⟨rfl, rfl, Or.inl ⟨rfl, rfl, rfl⟩⟩
            | yes =>
              cases j with
              | obj fields =>
                rw [stepGen_persist parse out uuid st s fields hres hne hp hm
                  hc] at h
                cases h
                exact ⟨rfl, rfl, Or.inr ⟨s, fields, rfl, hp, hm, hc, rfl,
                  rfl, rfl⟩⟩
              | null =>
                rw [stepGen_crash_assign parse out uuid st s _ hres hne hp hm
                  hc (by intro fields hcon; cases hcon)] at h
                simp at h
              | bool b =>
                rw [stepGen_crash_assign parse out uuid st s _ hres hne hp hm
                  hc (by intro fields hcon; cases hcon)] at h
                simp at h
              | num n =>
                rw [stepGen_crash_assign parse out uuid st s _ hres hne hp hm
                  hc (by intro fields hcon; cases hcon)] at h
                simp at h
              | str t =>
                rw [stepGen_crash_assign parse out uuid st s _ hres hne hp hm
                  hc (by intro fields hcon; cases hcon)] at h
                simp at h
              | arr elems =>
                rw [stepGen_crash_assign parse out uuid st s _ hres hne hp hm
                  hc (by intro fields hcon; cases hcon)] at h
                simp at h
      | null =>
        simp [Json.truthy] at ht
      | bool b =>
        rw [stepGen_crash_nonstring parse out uuid st _ hres ht
          (by intro t hcon; cases hcon)] at h
        simp at h
      | num n =>
        rw [stepGen_crash_nonstring parse out uuid st _ hres ht
          (by intro t hcon; cases hcon)] at h
        simp at h
      | arr elems =>
        rw [stepGen_crash_nonstring parse out uuid st _ hres ht
          (by intro t hcon; cases hcon)] at h
        simp at h
      | obj fields =>
        rw [stepGen_crash_nonstring parse out uuid st _ hres ht
          (by intro t hcon; cases hcon)] at h
        simp at h
    · rw [stepGen_falsy parse out uuid st v hres (by simpa using ht)] at h
      cases h
      exact ⟨rfl, rfl, Or.inl ⟨rfl, rfl, rfl⟩⟩

/-! ## Run-level lemmas -/

/-- With a client whose every outcome is the plain failure signal with no
network traffic (as `call_llm` behaves when the credential is missing),
the loop never finishes: every fuel bound is exhausted with the counter,
the records, the file and the network total unchanged. -/
theorem runGen_const_failure (parse : String → Option Json)
    (client : Nat → CallOut) (uuids : Nat → String) (target : Nat)
    (hc : ∀ n, (client n).result = .failure ∧ (client n).net = 0)
    (fuel : Nat) (st : GenState) (hlt : st.count < target) :
    runGen parse client uuids target fuel st =
      .outOfFuel ⟨st.attempt + fuel, st.count, st.records, st.file,
        st.netCalls⟩ := by
  induction fuel generalizing st with
  | zero =>
    unfold runGen
    rw [if_pos hlt]
    simp
  | succ fuel ih =>
    unfold runGen
    rw [if_pos hlt,
      stepGen_fail parse (client st.attempt) (uuids st.attempt) st (hc _).1]
    show runGen parse client uuids target fuel
      ⟨st.attempt + 1, st.count, st.records, st.file,
        st.netCalls + (client st.attempt).net⟩ = _
    rw [ih ⟨st.attempt + 1, st.count, st.records, st.file,
      st.netCalls + (client st.attempt).net⟩ hlt]
    show RunResult.outOfFuel ⟨st.attempt + 1 + fuel, st.count, st.records,
      st.file, st.netCalls + (client st.attempt).net⟩ = _
    rw [(hc st.attempt).2,
      show st.attempt + 1 + fuel = st.attempt + (fuel + 1) from by omega]
    simp

/-- A normal exit of the loop happens exactly at the target count: the
guard `generated_data_count < num_to_generate` fails only then, given
that the counter never jumps past the target (it grows by at most one
per iteration from below the target). -/
theorem runGen_done_count (parse : String → Option Json)
    (client : Nat → CallOut) (uuids : Nat → String) (target fuel : Nat)
    (st stF : GenState) (hle : st.count ≤ target)
    (h : runGen parse client uuids target fuel st = .done stF) :
    stF.count = target := by
  induction fuel generalizing st with
  | zero =>
    unfold runGen at h
    by_cases hlt : st.count < target
    · rw [if_pos hlt] at h
      cases h
    · rw [if_neg hlt] at h
      cases h
      omega
  | succ fuel ih =>
    unfold runGen at h
    by_cases hlt : st.count < target
    · rw [if_pos hlt] at h
      cases hstep : stepGen parse (client st.attempt) (uuids st.attempt) st with
      | ok st1 =>
        rw [hstep] at h
        obtain ⟨-, -, hcase⟩ := stepGen_ok_cases _ _ _ _ _ hstep
        rcases hcase with ⟨hcnt, -, -⟩ | ⟨-, -, -, -, -, -, hcnt, -, -⟩
        · exact ih _ (by omega) h
        · exact ih _ (by omega) h
      | crashed st1 =>
        rw [hstep] at h
        cases h
    · rw [if_neg hlt] at h
      cases h
      omega

/-- From any state whose attempt index is past `a`, a client that
returns the same persistable response on every attempt from `a` on
drives the loop to a normal exit in exactly `target - count` more
iterations, appending exactly that many records. -/
theorem runGen_all_good (parse : String → Option Json)
    (client : Nat → CallOut) (uuids : Nat → String) (target : Nat)
    (a : Nat) (sGood : String) (fields : List (String × Json))
    (hgood : ∀ n, a ≤ n → (client n).result = .content (.str sGood))
    (hne : sGood ≠ "") (hp : parse sGood = some (.obj fields))
    (hm : Json.hasKeyPy "messages" (.obj fields) = .yes)
    (hc : Json.hasKeyPy "condition" (.obj fields) = .yes)
    (k : Nat) (st : GenState) (ha : a ≤ st.attempt)
    (hcount : st.count + k = target) :
    (runGen parse client uuids target k st).isDone = true ∧
    (runGen parse client uuids target k st).state.records.length =
      st.records.length + k := by
  induction k generalizing st with
  | zero =>
    unfold runGen
    rw [if_neg (by omega)]
    exact ⟨rfl, rfl⟩
  | succ k ih =>
    unfold runGen
    rw [if_pos (by omega),
      stepGen_persist parse (client st.attempt) (uuids st.attempt) st sGood
        fields (hgood _ ha) hne hp hm hc]
    have hstep := ih ⟨st.attempt + 1, st.count + 1,
      st.records ++ [persistRecord fields (uuids st.attempt)],
      st.file ++ Json.dumps (persistRecord fields (uuids st.attempt)) ++ sepLit,
      st.netCalls + (client st.attempt).net⟩
      (by show a ≤ st.attempt + 1; omega)
      (by show st.count + 1 + k = target; omega)
    constructor
    · exact hstep.1
    · show (runGen parse client uuids target k
        ⟨st.attempt + 1, st.count + 1,
          st.records ++ [persistRecord fields (uuids st.attempt)],
          st.file ++ Json.dumps (persistRecord fields (uuids st.attempt)) ++
            sepLit,
          st.netCalls + (client st.attempt).net⟩).state.records.length =
        st.records.length + (k + 1)
      rw [hstep.2]
      simp [List.length_append]
      omega

/-! ## C2 -/

/-- A network stream for concrete runs; with the credential missing it is
never consulted. -/
def netAlways : Nat → HttpResult := fun _ => .resp 200 (some (.obj [])) ""

/-- C2 fails as stated: with the credential unset (and a loadable seed
file), the run does NOT terminate. `call_llm` returns `None` on every
attempt, the loop counts it as a skipped attempt and retries forever:
no fuel bound ever completes the loop. -/
theorem credential_missing_loop_never_ends :
    ¬ GenTerminates mockParse "10.9.json" (some ["A"]) [0]
      (fun n => call_llm none (netAlways n)) uuidsDigits 50 := by
  rintro ⟨fuel, hfuel⟩
  apply hfuel
  have h1 : generate_synthetic_data mockParse "10.9.json" (some ["A"]) [0]
      (fun n => call_llm none (netAlways n)) uuidsDigits 50 fuel =
      ⟨true, runGen mockParse (fun n => call_llm none (netAlways n))
        uuidsDigits 50 fuel startState, []⟩ := rfl
  rw [h1, runGen_const_failure mockParse (fun n => call_llm none (netAlways n))
    uuidsDigits 50 (fun n => ⟨rfl, rfl⟩) fuel startState (by decide)]
  rfl

/-- C2 (amended): with the credential unset, every attempt reports the
missing-credential error and fails before any network interaction — the
run makes zero network calls and persists zero records, and the loop
never exits normally — but it does NOT terminate: it retries forever
(every fuel bound is exhausted when seeds load; seed failure is the only
early exit). -/
theorem credential_missing_no_calls_no_records
    (parse : String → Option Json) (filepath : String)
    (file : Option (List String)) (sel : List Nat) (net : Nat → HttpResult)
    (uuids : Nat → String) (target fuel : Nat) (ht : 0 < target) :
    (generate_synthetic_data parse filepath file sel
      (fun n => call_llm none (net n)) uuids target
      fuel).result.state.netCalls = 0 ∧
    (generate_synthetic_data parse filepath file sel
      (fun n => call_llm none (net n)) uuids target
      fuel).result.state.records = [] ∧
    (generate_synthetic_data parse filepath file sel
      (fun n => call_llm none (net n)) uuids target
      fuel).result.isDone = false ∧
    (∀ x, (call_llm none x).log = [missingKeyMsg]) ∧
    (∀ x, (call_llm none x).net = 0) := by
  by_cases hE : (load_seed_examples parse filepath file sel).1 = []
  · rw [generate_abort_of_no_seeds parse filepath file sel _ uuids target fuel
      hE]
    exact ⟨rfl, rfl, rfl, fun x => rfl, fun x => rfl⟩
  · have hgen : generate_synthetic_data parse filepath file sel
        (fun n => call_llm none (net n)) uuids target fuel =
        ⟨true, runGen parse (fun n => call_llm none (net n)) uuids target fuel
          startState, (load_seed_examples parse filepath file sel).2⟩ := by
      unfold generate_synthetic_data
      rcases hL : load_seed_examples parse filepath file sel with ⟨seeds, log⟩
      rw [hL] at hE
      simp only at hE
      simp [hE, hL]
    rw [hgen, runGen_const_failure parse (fun n => call_llm none (net n))
      uuids target (fun n => ⟨rfl, rfl⟩) fuel startState ht]
    exact ⟨rfl, rfl, rfl, fun x => rfl, fun x => rfl⟩

/-- Witness for C2 (amended) at a concrete input: loadable seed file,
target 50, fuel 9. -/
theorem credential_missing_no_calls_no_records_witness :
    0 < 50 ∧
    ((generate_synthetic_data mockParse "10.9.json" (some ["A"]) [0]
        (fun n => call_llm none (netAlways n)) uuidsDigits 50
        9).result.state.netCalls = 0 ∧
      (generate_synthetic_data mockParse "10.9.json" (some ["A"]) [0]
        (fun n => call_llm none (netAlways n)) uuidsDigits 50
        9).result.state.records = [] ∧
      (generate_synthetic_data mockParse "10.9.json" (some ["A"]) [0]
        (fun n => call_llm none (netAlways n)) uuidsDigits 50
        9).result.isDone = false ∧
      (∀ x, (call_llm none x).log = [missingKeyMsg]) ∧
      (∀ x, (call_llm none x).net = 0)) :=
  ⟨by decide, credential_missing_no_calls_no_records mockParse "10.9.json"
    (some ["A"]) [0] netAlways uuidsDigits 50 9 (by decide)⟩

/-! ## C3 -/

/-- The failure modes of one attempt that the loop handles by skipping:
client failure signal (`None`, or a falsy return value), unparseable
response text, or a parsed value on which a required-key test answers
no. -/
def FailedAttempt (parse : String → Option Json) (out : CallOut) : Prop :=
  out.result = .failure ∨ (∃ raw, out.result = .failureRaw raw) ∨
  (∃ v, out.result = .content v ∧ v.truthy = false) ∨
  (∃ s, out.result = .content (.str s) ∧ s ≠ "" ∧ parse s = none) ∨
  (∃ s j, out.result = .content (.str s) ∧ s ≠ "" ∧ parse s = some j ∧
    (Json.hasKeyPy "messages" j = .no ∨
      (Json.hasKeyPy "messages" j = .yes ∧
        Json.hasKeyPy "condition" j = .no)))

/-- C3 fails as stated: a response that parses to a NON-OBJECT JSON value
(here the number 5) makes the `"messages" in new_data` test raise an
uncaught `TypeError`: the run aborts at once — the loop terminates with
the success counter at 0, nothing persisted, although the target 5 was
never reached. -/
theorem nonobject_response_crashes_run :
    (generate_synthetic_data mockParse "10.9.json" (some ["A"]) [0] numClient
        uuidsDigits 5 10).result = .crashed ⟨1, 0, [], "", 1⟩ ∧
    (generate_synthetic_data mockParse "10.9.json" (some ["A"]) [0] numClient
        uuidsDigits 5 10).result.isOutOfFuel = false ∧
    (generate_synthetic_data mockParse "10.9.json" (some ["A"]) [0] numClient
        uuidsDigits 5 10).result.isDone = false ∧
    (generate_synthetic_data mockParse "10.9.json" (some ["A"]) [0] numClient
        uuidsDigits 5 10).result.state.count = 0 ∧
    (generate_synthetic_data mockParse "10.9.json" (some ["A"]) [0] numClient
        uuidsDigits 5 10).result.state.records = [] :=
  ⟨rfl, rfl, rfl, rfl, rfl⟩

/-- C3 (amended): provided every response that parses parses to a JSON
OBJECT, the claim holds: (1) a failed attempt changes neither the
counter nor the persisted records or file — only the attempt index and
the network total advance; (2) a normal loop exit from the fresh state
happens exactly at the target count; (3) with a mocked client returning
non-JSON text on the first attempt and the same valid record text on
every later attempt, the run exits normally with exactly `target`
persisted records. A response parsing to a non-object value instead
crashes the run via an uncaught `TypeError` (see the counterexample). -/
theorem generation_loop_amended :
    (∀ (parse : String → Option Json) (out : CallOut) (uuid : String)
        (st : GenState), FailedAttempt parse out →
      stepGen parse out uuid st =
        .ok ⟨st.attempt + 1, st.count, st.records, st.file,
          st.netCalls + out.net⟩) ∧
    (∀ (parse : String → Option Json) (client : Nat → CallOut)
        (uuids : Nat → String) (target fuel : Nat) (stF : GenState),
      runGen parse client uuids target fuel startState = .done stF →
      stF.count = target) ∧
    (∀ (parse : String → Option Json) (uuids : Nat → String) (target : Nat)
        (sBad sGood : String) (fields : List (String × Json)),
      0 < target → parse sBad = none → sBad ≠ "" → sGood ≠ "" →
      parse sGood = some (.obj fields) →
      Json.hasKeyPy "messages" (.obj fields) = .yes →
      Json.hasKeyPy "condition" (.obj fields) = .yes →
      (runGen parse
          (fun n => if n = 0 then ⟨.content (.str sBad), 1, []⟩
            else ⟨.content (.str sGood), 1, []⟩)
          uuids target (target + 1) startState).isDone = true ∧
      (runGen parse
          (fun n => if n = 0 then ⟨.content (.str sBad), 1, []⟩
            else ⟨.content (.str sGood), 1, []⟩)
          uuids target (target + 1) startState).state.records.length =
        target) := by
  refine ⟨?_, ?_, ?_⟩
  · intro parse out uuid st hfa
    rcases hfa with h | ⟨raw, h⟩ | ⟨v, h, hf⟩ | ⟨s, h, hne, hp⟩ |
      ⟨s, j, h, hne, hp, hkey⟩
    · exact stepGen_fail parse out uuid st h
    · exact stepGen_failRaw parse out uuid st raw h
    · exact stepGen_falsy parse out uuid st v h hf
    · exact stepGen_noparse parse out uuid st s h hne hp
    · rcases hkey with hm | ⟨hm, hc⟩
      · exact stepGen_no_messages parse out uuid st s j h hne hp hm
      · exact stepGen_no_condition parse out uuid st s j h hne hp hm hc
  · intro parse client uuids target fuel stF h
    exact runGen_done_count parse client uuids target fuel startState stF
      (Nat.zero_le target) h
  · intro parse uuids target sBad sGood fields ht hb hbne hgne hg hm hc
    unfold runGen
    rw [if_pos (show startState.count < target from ht),
      stepGen_noparse parse _ (uuids startState.attempt) startState sBad rfl
        hbne hb]
    have hrun := runGen_all_good parse
      (fun n => if n = 0 then ⟨.content (.str sBad), 1, []⟩
        else ⟨.content (.str sGood), 1, []⟩)
      uuids target 1 sGood fields
      (fun n hn => by simp only; rw [if_neg (by omega)]) hgne hg hm hc target
      ⟨startState.attempt + 1, startState.count, startState.records,
        startState.file, startState.netCalls + 1⟩
      (le_refl 1) (Nat.zero_add target)
    constructor
    · exact hrun.1
    · show (runGen parse
          (fun n => if n = 0 then ⟨.content (.str sBad), 1, []⟩
            else ⟨.content (.str sGood), 1, []⟩)
          uuids target target
          ⟨startState.attempt + 1, startState.count, startState.records,
            startState.file, startState.netCalls + 1⟩).state.records.length =
        target
      rw [hrun.2]
      simp [startState]

/-- Witness for C3 (amended) at concrete inputs: a skipped failing
attempt, a concrete normal exit, and the mocked one-bad-then-good run
with target 3. -/
theorem generation_loop_amended_witness :
    (FailedAttempt mockParse ⟨.failure, 0, []⟩ ∧
      stepGen mockParse ⟨.failure, 0, []⟩ "u" startState =
        .ok ⟨1, 0, [], "", 0⟩) ∧
    (runGen mockParse goodClient uuidsDigits 2 4 startState =
        .done ⟨2, 2, (runGen mockParse goodClient uuidsDigits 2 4
          startState).state.records,
          (runGen mockParse goodClient uuidsDigits 2 4 startState).state.file,
          2⟩ →
      ((runGen mockParse goodClient uuidsDigits 2 4
        startState).state.count = 2)) ∧
    (0 < 3 ∧ mockParse "X" = none ∧
      (runGen mockParse
        (fun n => if n = 0 then ⟨.content (.str "X"), 1, []⟩
          else ⟨.content (.str "G"), 1, []⟩)
        uuidsDigits 3 4 startState).isDone = true ∧
      (runGen mockParse
        (fun n => if n = 0 then ⟨.content (.str "X"), 1, []⟩
          else ⟨.content (.str "G"), 1, []⟩)
        uuidsDigits 3 4 startState).state.records.length = 3) := by
  have h3 := generation_loop_amended.2.2 mockParse uuidsDigits 3 "X" "G"
    goodRecordFields (by decide) rfl (by decide) (by decide) rfl rfl rfl
  refine ⟨⟨Or.inl rfl, ?_⟩, ?_, by decide, rfl, h3.1, h3.2⟩
  · exact generation_loop_amended.1 mockParse ⟨.failure, 0, []⟩ "u" startState
      (Or.inl rfl)
  · intro h
    exact congrArg GenState.count
      (congrArg RunResult.state h) ▸ rfl

/-! ## C6 -/

/-- The persisted identifier of a record: the string under its `id` key. -/
def idOf : Json → Option String
  | .obj fields =>
    match Json.lookupField fields "id" with
    | some (.str s) => some s
    | _ => none
  | _ => none

/-- A crashing iteration persists nothing: the state at the crash is the
input state with only the attempt index and network total advanced. -/
theorem stepGen_crashed_cases (parse : String → Option Json) (out : CallOut)
    (uuid : String) (st st1 : GenState)
    (h : stepGen parse out uuid st = .crashed st1) :
    st1 = ⟨st.attempt + 1, st.count, st.records, st.file,
      st.netCalls + out.net⟩ := by
  unfold stepGen at h
  repeat'
    first
    | (cases h; rfl)
    | (simp at h)
    | split at h

/-- `"messages" in new_data` answers yes on a dict exactly when the key
occurs among its entries. -/
theorem hasKeyPy_obj_yes_iff (fields : List (String × Json)) (k : String) :
    Json.hasKeyPy k (.obj fields) = .yes ↔
      fields.any (fun f => f.1 = k) = true := by
  unfold Json.hasKeyPy
  split <;> simp_all

/-- Injecting the fresh identifier keeps every other key present. -/
theorem persistRecord_keeps_key (fields : List (String × Json)) (u k : String)
    (hk : k ≠ "id") (h : Json.hasKeyPy k (.obj fields) = .yes) :
    Json.hasKeyPy k (persistRecord fields u) = .yes := by
  unfold persistRecord
  rw [hasKeyPy_obj_yes_iff] at h ⊢
  exact pySet_preserves_keys fields "id" k (.str u) hk h

/-- The persisted record's identifier is the injected one (overwriting
any identifier the model supplied). -/
theorem idOf_persistRecord (fields : List (String × Json)) (u : String) :
    idOf (persistRecord fields u) = some u := by
  simp [persistRecord, idOf, lookupField_pySet_self]

/-- Run invariant behind C6: every persisted record carries both
required keys; every persisted identifier is a uuid drawn at an earlier
attempt; the persisted identifiers are pairwise distinct. -/
def RecInv (uuids : Nat → String) (st : GenState) : Prop :=
  (∀ r ∈ st.records, Json.hasKeyPy "messages" r = .yes ∧
      Json.hasKeyPy "condition" r = .yes) ∧
  (∀ r ∈ st.records, ∃ k, k < st.attempt ∧ idOf r = some (uuids k)) ∧
  (st.records.map idOf).Nodup

/-- The invariant survives keeping the records while the attempt index
moves forward. -/
theorem RecInv_bump (uuids : Nat → String) (st st1 : GenState)
    (hI : RecInv uuids st) (hrec : st1.records = st.records)
    (ha : st.attempt ≤ st1.attempt) : RecInv uuids st1 := by
  obtain ⟨hkeys, hid, hnd⟩ := hI
  refine ⟨?_, ?_, ?_⟩ <;> rw [hrec]
  · exact hkeys
  · intro r hr
    obtain ⟨k, hk, hidr⟩ := hid r hr
    exact ⟨k, by omega, hidr⟩
  · exact hnd

/-- One iteration preserves the invariant when the identifier injected
is this attempt's draw from an injective uuid stream. -/
theorem stepGen_preserves_RecInv (parse : String → Option Json)
    (out : CallOut) (uuids : Nat → String)
    (hinj : Function.Injective uuids) (st st1 : GenState)
    (h : stepGen parse out (uuids st.attempt) st = .ok st1)
    (hI : RecInv uuids st) : RecInv uuids st1 := by
  obtain ⟨ha, -, hcase⟩ := stepGen_ok_cases parse out (uuids st.attempt) st
    st1 h
  rcases hcase with ⟨-, hrec, -⟩ | ⟨s, fields, -, -, hm, hc, -, hrec, -⟩
  · exact RecInv_bump uuids st st1 hI hrec (by omega)
  · obtain ⟨hkeys, hid, hnd⟩ := hI
    refine ⟨?_, ?_, ?_⟩ <;> rw [hrec]
    · intro r hr
      rcases List.mem_append.1 hr with hr | hr
      · exact hkeys r hr
      · rw [List.mem_singleton.1 hr]
        exact ⟨persistRecord_keeps_key fields (uuids st.attempt) "messages"
            (by decide) hm,
          persistRecord_keeps_key fields (uuids st.attempt) "condition"
            (by decide) hc⟩
    · intro r hr
      rcases List.mem_append.1 hr with hr | hr
      · obtain ⟨k, hk, hidr⟩ := hid r hr
        exact ⟨k, by omega, hidr⟩
      · rw [List.mem_singleton.1 hr]
        exact ⟨st.attempt, by omega, idOf_persistRecord fields _⟩
    · rw [List.map_append, List.nodup_append]
      refine ⟨hnd, by simp, ?_⟩
      intro x hx hx2
      simp only [List.map_cons, List.map_nil, List.mem_singleton,
        idOf_persistRecord] at hx2
      obtain ⟨r, hr, hidr⟩ := List.mem_map.1 hx
      obtain ⟨k, hk, hidk⟩ := hid r hr
      rw [hx2] at hidr
      rw [hidr] at hidk
      have : uuids st.attempt = uuids k := by
        injection hidk
      exact absurd (hinj this) (by omega)

/-- The invariant holds at every state the bounded run can end in. -/
theorem runGen_RecInv (parse : String → Option Json) (client : Nat → CallOut)
    (uuids : Nat → String) (target : Nat)
    (hinj : Function.Injective uuids) (fuel : Nat) (st : GenState)
    (hI : RecInv uuids st) :
    RecInv uuids (runGen parse client uuids target fuel st).state := by
  induction fuel generalizing st with
  | zero =>
    unfold runGen
    split <;> exact hI
  | succ fuel ih =>
    unfold runGen
    by_cases hlt : st.count < target
    · rw [if_pos hlt]
      cases hstep : stepGen parse (client st.attempt) (uuids st.attempt) st with
      | ok st1 =>
        exact ih st1 (stepGen_preserves_RecInv parse (client st.attempt) uuids
          hinj st st1 hstep hI)
      | crashed st1 =>
        have hc1 := stepGen_crashed_cases parse (client st.attempt)
          (uuids st.attempt) st st1 hstep
        subst hc1
        show RecInv uuids (RunResult.crashed ⟨st.attempt + 1, st.count,
          st.records, st.file, st.netCalls + (client st.attempt).net⟩).state
        exact RecInv_bump uuids st _ hI rfl
          (by show st.attempt ≤ st.attempt + 1; omega)
    · rw [if_neg hlt]
      exact hI

/-- C6: every record persisted by a run of the generation loop contains
both the `messages` and `condition` top-level keys, and the persisted
identifiers are pairwise distinct — assuming the uuid draws never
repeat. This holds whatever the run outcome (normal exit, fuel
exhaustion, or crash). -/
theorem persisted_records_keys_and_unique_ids (parse : String → Option Json)
    (client : Nat → CallOut) (uuids : Nat → String) (target fuel : Nat)
    (hinj : Function.Injective uuids) :
    (∀ r ∈ (runGen parse client uuids target fuel startState).state.records,
      Json.hasKeyPy "messages" r = .yes ∧
      Json.hasKeyPy "condition" r = .yes) ∧
    ((runGen parse client uuids target fuel
      startState).state.records.map idOf).Nodup := by
  have h := runGen_RecInv parse client uuids target hinj fuel startState
    ⟨by simp [startState], by simp [startState], by simp [startState]⟩
  exact ⟨h.1, h.2.2⟩

/-- Witness for C6 at a concrete run: injective uuid stream, target 3. -/
theorem persisted_records_keys_and_unique_ids_witness :
    Function.Injective uuidsRepl ∧
    ((∀ r ∈ (runGen mockParse goodClient uuidsRepl 3 5
        startState).state.records,
      Json.hasKeyPy "messages" r = .yes ∧
      Json.hasKeyPy "condition" r = .yes) ∧
    ((runGen mockParse goodClient uuidsRepl 3 5
      startState).state.records.map idOf).Nodup) :=
  ⟨uuidsRepl_injective,
    persisted_records_keys_and_unique_ids mockParse goodClient uuidsRepl 3 5
      uuidsRepl_injective⟩

/-! ## C9 -/

/-- C9: a persisted record is exactly the parsed model output with only
`id` changed: the fresh identifier is written over `id` (overwriting any
model-supplied value), the lookup of every other top-level key is
unchanged, and exactly this record is appended to the records and to the
file. -/
theorem persisted_record_frame (parse : String → Option Json) (out : CallOut)
    (uuid : String) (st : GenState) (s : String)
    (fields : List (String × Json))
    (h : out.result = .content (.str s)) (hne : s ≠ "")
    (hp : parse s = some (.obj fields))
    (hm : Json.hasKeyPy "messages" (.obj fields) = .yes)
    (hc : Json.hasKeyPy "condition" (.obj fields) = .yes) :
    stepGen parse out uuid st = .ok ⟨st.attempt + 1, st.count + 1,
      st.records ++ [persistRecord fields uuid],
      st.file ++ Json.dumps (persistRecord fields uuid) ++ sepLit,
      st.netCalls + out.net⟩ ∧
    persistRecord fields uuid = .obj (Json.pySet fields "id" (.str uuid)) ∧
    Json.lookupField (Json.pySet fields "id" (.str uuid)) "id" =
      some (.str uuid) ∧
    (∀ k, k ≠ "id" →
      Json.lookupField (Json.pySet fields "id" (.str uuid)) k =
        Json.lookupField fields k) :=
  ⟨stepGen_persist parse out uuid st s fields h hne hp hm hc, rfl,
    lookupField_pySet_self fields "id" (.str uuid),
    fun k hk => lookupField_pySet_other fields "id" k (.str uuid) hk⟩

/-- Witness for C9 at a concrete persisting step. -/
theorem persisted_record_frame_witness :
    ((goodClient 0).result = .content (.str "G") ∧ "G" ≠ "" ∧
      mockParse "G" = some (.obj goodRecordFields) ∧
      Json.hasKeyPy "messages" (.obj goodRecordFields) = .yes ∧
      Json.hasKeyPy "condition" (.obj goodRecordFields) = .yes) ∧
    stepGen mockParse (goodClient 0) "u0" startState =
      .ok ⟨1, 1, [persistRecord goodRecordFields "u0"],
        Json.dumps (persistRecord goodRecordFields "u0") ++ sepLit, 1⟩ ∧
    Json.lookupField (Json.pySet goodRecordFields "id" (.str "u0")) "id" =
      some (.str "u0") ∧
    Json.lookupField (Json.pySet goodRecordFields "id" (.str "u0"))
      "messages" = Json.lookupField goodRecordFields "messages" := by
  have h := persisted_record_frame mockParse (goodClient 0) "u0" startState
    "G" goodRecordFields rfl (by decide) rfl rfl rfl
  exact ⟨⟨rfl, by decide, rfl, rfl, rfl⟩, h.1, h.2.2.1,
    h.2.2.2 "messages" (by decide)⟩

/-! ## C8 -/

/-- C8 fails as stated: a 2xx response whose JSON body is a top-level
array makes `response_json['choices']` raise an uncaught `TypeError`:
`call_llm` crashes instead of returning a failure signal. -/
theorem array_body_crashes_call_llm :
    (call_llm (some "k") (.resp 200 (some (.arr [])) "[]")).result =
      .crash ∧
    (call_llm (some "k") (.resp 200 (some (.arr [])) "[]")).net = 1 :=
  ⟨rfl, rfl⟩

/-- C8 (amended): `call_llm` makes at most one request per call (no
retry) and builds it with the fixed `timeout=120` and `max_tokens=1024`;
a missing credential returns the failure signal before any request;
transport errors, non-2xx statuses and undecodable bodies each return
the failure signal; a decodable body whose completion extraction fails
with a missing key or index returns the failure signal with the raw body
surfaced in the diagnostics; a successful extraction returns the
completion value; but a body whose traversal subscripts a value of the
wrong type raises an uncaught `TypeError` instead of signalling. -/
theorem call_llm_failure_taxonomy :
    (∀ (key : Option String) (net : HttpResult), (call_llm key net).net ≤ 1) ∧
    (∀ (url key model : String) (msgs : List (String × String)),
      (buildRequest url key model msgs).timeoutSeconds = 120 ∧
      (buildRequest url key model msgs).max_tokens = 1024) ∧
    (∀ net, call_llm none net = ⟨.failure, 0, [missingKeyMsg]⟩) ∧
    (∀ k, call_llm (some k) .transportError =
      ⟨.failure, 1, [requestFailMsg]⟩) ∧
    (∀ k status (body : Option Json) raw, 400 ≤ status →
      call_llm (some k) (.resp status body raw) =
        ⟨.failure, 1, [requestFailMsg]⟩) ∧
    (∀ k status raw, status < 400 →
      call_llm (some k) (.resp status none raw) =
        ⟨.failure, 1, [requestFailMsg]⟩) ∧
    (∀ k status j raw c, status < 400 → extractContent j = .ok c →
      call_llm (some k) (.resp status (some j) raw) = ⟨.content c, 1, []⟩) ∧
    (∀ k status j raw, status < 400 →
      (extractContent j = .keyError ∨ extractContent j = .indexError) →
      call_llm (some k) (.resp status (some j) raw) =
        ⟨.failureRaw raw, 1, [schemaFailMsg, "原始响应: " ++ raw]⟩) ∧
    (∀ k status j raw, status < 400 → extractContent j = .typeError →
      call_llm (some k) (.resp status (some j) raw) = ⟨.crash, 1, []⟩) := by
  refine ⟨?_, ?_, ?_, ?_, ?_, ?_, ?_, ?_, ?_⟩
  · intro key net
    cases key with
    | none => simp [call_llm]
    | some k =>
      cases net with
      | transportError => simp [call_llm]
      | resp status body raw =>
        simp only [call_llm]
        by_cases hs : 400 ≤ status
        · simp [hs]
        · rw [if_neg hs]
          cases body with
          | none => simp
          | some j => cases hx : extractContent j <;> simp [hx]
  · intro url key model msgs
    exact ⟨rfl, rfl⟩
  · intro net
    rfl
  · intro k
    rfl
  · intro k status body raw hs
    simp only [call_llm]
    rw [if_pos hs]
  · intro k status raw hs
    simp only [call_llm]
    rw [if_neg (by omega)]
  · intro k status j raw c hs hx
    simp only [call_llm]
    rw [if_neg (by omega)]
    simp [hx]
  · intro k status j raw hs hx
    simp only [call_llm]
    rcases hx with hx | hx
    · rw [if_neg (by omega)]
      simp [hx]
    · rw [if_neg (by omega)]
      simp [hx]
  · intro k status j raw hs hx
    simp only [call_llm]
    rw [if_neg (by omega)]
    simp [hx]

/-- Witness for C8 (amended), instantiating each failure kind at a
concrete input. -/
theorem call_llm_failure_taxonomy_witness :
    (call_llm (some "k") .transportError).net ≤ 1 ∧
    (buildRequest "u" "k" "m" []).timeoutSeconds = 120 ∧
    call_llm none .transportError = ⟨.failure, 0, [missingKeyMsg]⟩ ∧
    call_llm (some "k") .transportError = ⟨.failure, 1, [requestFailMsg]⟩ ∧
    ((400 : Nat) ≤ 500 ∧ call_llm (some "k") (.resp 500 none "e") =
      ⟨.failure, 1, [requestFailMsg]⟩) ∧
    ((200 : Nat) < 400 ∧ call_llm (some "k") (.resp 200 none "x") =
      ⟨.failure, 1, [requestFailMsg]⟩) ∧
    (extractContent (.obj [("choices", .arr [.obj [("message",
        .obj [("content", .str "G")])]])]) = .ok (.str "G") ∧
      call_llm (some "k") (.resp 200 (some (.obj [("choices",
        .arr [.obj [("message", .obj [("content", .str "G")])]])])) "r") =
        ⟨.content (.str "G"), 1, []⟩) ∧
    (extractContent (.obj []) = .keyError ∧
      call_llm (some "k") (.resp 200 (some (.obj [])) "r2") =
        ⟨.failureRaw "r2", 1, [schemaFailMsg, "原始响应: " ++ "r2"]⟩) ∧
    (extractContent (.arr []) = .typeError ∧
      call_llm (some "k") (.resp 200 (some (.arr [])) "r3") =
        ⟨.crash, 1, []⟩) :=
  ⟨call_llm_failure_taxonomy.1 (some "k") .transportError,
    (call_llm_failure_taxonomy.2.1 "u" "k" "m" []).1,
    call_llm_failure_taxonomy.2.2.1 .transportError,
    call_llm_failure_taxonomy.2.2.2.1 "k",
    ⟨by decide, call_llm_failure_taxonomy.2.2.2.2.1 "k" 500 none "e"
      (by decide)⟩,
    ⟨by decide, call_llm_failure_taxonomy.2.2.2.2.2.1 "k" 200 "x"
      (by decide)⟩,
    ⟨rfl, call_llm_failure_taxonomy.2.2.2.2.2.2.1 "k" 200 _ "r" (.str "G")
      (by decide) rfl⟩,
    ⟨rfl, call_llm_failure_taxonomy.2.2.2.2.2.2.2.1 "k" 200 _ "r2"
      (by decide) (Or.inl rfl)⟩,
    ⟨rfl, call_llm_failure_taxonomy.2.2.2.2.2.2.2.2 "k" 200 _ "r3"
      (by decide) rfl⟩⟩

/-! ## C1 -/

set_option maxRecDepth 100000 in
/-- C1 exposes a code bug: with a mocked client that always returns a
valid record text and target count 5, the run exits normally having
persisted exactly 5 records with pairwise-distinct fresh identifiers and
the output file opened in overwrite mode — but the file is NOT
line-delimited JSON. The source writes `json.dumps(new_data) + '\\n'`
with a literally escaped backslash, so each record is followed by the
two characters `\` and `n` (`sepLit`): the finished file contains ZERO
newline characters (and exactly 5 literal backslashes, one per record
separator) instead of five newline-terminated lines. -/
theorem five_records_but_zero_newlines :
    (generate_synthetic_data mockParse "10.9.json" (some ["A"]) [0] goodClient
        uuidsDigits 5 5).openedOutput = true ∧
    (generate_synthetic_data mockParse "10.9.json" (some ["A"]) [0] goodClient
        uuidsDigits 5 5).result.isDone = true ∧
    (generate_synthetic_data mockParse "10.9.json" (some ["A"]) [0] goodClient
        uuidsDigits 5 5).result.state.records.length = 5 ∧
    ((generate_synthetic_data mockParse "10.9.json" (some ["A"]) [0] goodClient
        uuidsDigits 5 5).result.state.records.map idOf).Nodup ∧
    sepLit = "\\n" ∧ sepLit.length = 2 ∧
    ((generate_synthetic_data mockParse "10.9.json" (some ["A"]) [0] goodClient
        uuidsDigits 5 5).result.state.file.data.count '\n') = 0 ∧
    ((generate_synthetic_data mockParse "10.9.json" (some ["A"]) [0] goodClient
        uuidsDigits 5 5).result.state.file.data.count '\\') = 5 := by
  refine ⟨rfl, rfl, rfl, by decide, rfl, rfl, by decide, by decide⟩
